import Mathlib

/-!
# The file-system gateway handlers of `controller.go`

A shallow embedding of the four gin handlers `Upload`, `Delete`, `Copy` and
`UoloadPolicy`.  A handler is a function from the environment it runs in (the
working directory, the outcome of saving an upload, what `config.LoadStorage`
returns) and the parsed request to the trace of effects it performs, in order:
lines printed, the file saved, the storage loaded, the storage operation called
with its arguments and returned error, and the writes to the HTTP response.

Go values are modelled as follows.
* An `error` is `Option String`: `none` is `nil`, `some t` an error whose
  `Error()` text is `t`.
* A `*multipart.FileHeader` is `Option FileHeader` (`none` is the nil pointer).
* The storage value returned by `config.LoadStorage` is `Option StorageBackend`
  (`none` is the nil interface); calling a method on it when it is nil is a
  run-time panic, which ends the handler without any further effect.
* A JSON body is kept as the object that is marshalled, a text body as the string
  that is written.
* A request is taken as the handler sees it through gin: what `c.ShouldBind`
  stores in each field of the form before it validates, and the post form that
  `c.PostForm` reads.  How gin finds the value of a field depends on the content
  type of the request and is left to gin; the two views are independent parts of
  a request.  The tag `binding:"required"` rejects the zero value of a field: the
  empty string, the nil file pointer.
* The operations of a storage value that is not nil return; what they return is
  not constrained.

The packages `config` (with `LoadStorage` and the storage interface), gin and
`httputil` are not part of `controller.go`; they enter through `Env`, `Request`
and the events `writeString`, `writeJSON` and `NewError`.
-/

namespace Filesystem

/-- A Go `error`: `none` is nil, `some t` has the `Error()` text `t`. -/
abbrev GoError := Option String

/-- The part of `multipart.FileHeader` the handlers read. -/
structure FileHeader where
  Filename : String
  deriving DecidableEq, Repr

/-- A request as a handler sees it through gin.
* `parseErr`: the error `c.ShouldBind` returns before it validates, when the body
  cannot be read or mapped into the form; nil otherwise.
* `field tag`: the string the binder stores in the string field of the form tagged
  `tag`; it is empty when the binder finds no value, or an empty value, for the
  field.  Where the binder looks depends on the content type (a form value under
  the key, a JSON member of that name whatever its case, the URL query of a
  url-encoded form).
* `file`: the pointer the binder stores in the field `File` of `UPloadForm`, nil
  when it stores none.  For a multipart form it is the first uploaded part named
  `file`; the binder also fills it from a JSON object, or from values named after
  the members of `multipart.FileHeader`, when nothing was uploaded.
* `uploads`: the file parts uploaded in a multipart body, by part name.
* `postForm`: the values of the post form by key in the order received, which
  `c.PostForm` reads. -/
structure Request where
  parseErr : GoError
  field : String → String
  file : Option FileHeader
  uploads : List (String × FileHeader)
  postForm : List (String × String)

/-- The form of `Upload` (struct `UPloadForm`). -/
structure UPloadForm where
  File : Option FileHeader
  RemoteFilePath : String
  deriving DecidableEq, Repr

/-- The form of `Delete` (struct `DeleteForm`). -/
structure DeleteForm where
  RemoteFilePath : String
  deriving DecidableEq, Repr

/-- The form of `Copy` (struct `CopyForm`). -/
structure CopyForm where
  SrcFilePath : String
  DstFilePath : String
  deriving DecidableEq, Repr

/-- The form of `UoloadPolicy` (struct `UploadPolicyForm`). -/
structure UploadPolicyForm where
  RemoteFilePath : String
  CallbackURL : String
  CallbackBody : String
  deriving DecidableEq, Repr

/-- The storage interface the handlers call: the value `config.LoadStorage`
returns.  Each operation returns its Go error; `GetUploadPolicy` returns the
policy string as well. -/
structure StorageBackend where
  UploadLocalFile : String → String → GoError
  DeleteSingleFile : String → GoError
  CopyFile : String → String → GoError
  GetUploadPolicy : String → String → String → String × GoError

/-- What a handler reads from outside the request: `os.Getwd()`, the outcome of
`c.SaveUploadedFile(file, dst)`, and the pair `config.LoadStorage()` returns. -/
structure Env where
  Getwd : String × GoError
  SaveUploadedFile : FileHeader → String → GoError
  LoadStorage : Option StorageBackend × GoError

/-- A JSON value as the handlers marshal them. -/
inductive JSONValue where
  | str (s : String)
  | num (n : Int)
  deriving DecidableEq, Repr

/-- A JSON object: its members in the order the source lists them. -/
abbrev JSONObject := List (String × JSONValue)

/-- A call of a storage operation with its arguments. -/
inductive StorageCall where
  | UploadLocalFile (localFile remoteFile : String)
  | DeleteSingleFile (remoteFile : String)
  | CopyFile (srcFile dstFile : String)
  | GetUploadPolicy (remoteFile callbackURL callbackBody : String)
  deriving DecidableEq, Repr

/-- One effect of a handler. -/
inductive Event where
  /-- A line written by `fmt.Println`. -/
  | Println (line : String)
  /-- The call `c.SaveUploadedFile(file, dst)`, with the error it returned. -/
  | SaveUploadedFile (file : FileHeader) (dst : String) (err : GoError)
  /-- The call `config.LoadStorage()`. -/
  | LoadStorage
  /-- A storage operation invoked on the loaded backend, with the error it returned. -/
  | storage (call : StorageCall) (err : GoError)
  /-- The write `c.String(code, text)`: no values are passed, so gin writes the text as it is. -/
  | writeString (code : Nat) (text : String)
  /-- The write `c.JSON(code, obj)`. -/
  | writeJSON (code : Nat) (obj : JSONObject)
  deriving DecidableEq, Repr

/-- What a handler did: its effects in order, and whether it ended in a panic. -/
structure Outcome where
  events : List Event
  panicked : Bool
  deriving DecidableEq, Repr

/-- The first value of the post form under `key`, the empty string when there is
none: `c.PostForm(key)`. -/
def PostForm (req : Request) (key : String) : String :=
  (req.postForm.lookup key).getD ""

/-- The text of the validator error for the fields of `form` that failed `required`. -/
def requiredError (form : String) (fields : List String) : String :=
  "\n".intercalate (fields.map fun f =>
    "Key: '" ++ form ++ "." ++ f ++ "' Error:Field validation for '" ++ f ++
      "' failed on the 'required' tag")

/-- The fields among `fields` whose value is the empty string. -/
def emptyFields : List (String × String) → List String
  | [] => []
  | (name, value) :: rest =>
    if value = "" then name :: emptyFields rest else emptyFields rest

/-- `c.ShouldBind(&form)` for `UPloadForm`: both fields carry `binding:"required"`. -/
def bindUPloadForm (req : Request) : Except String UPloadForm :=
  match req.parseErr with
  | some e => .error e
  | none =>
    let form : UPloadForm := ⟨req.file, req.field "remoteFilePath"⟩
    let failed := (if form.File.isNone then ["File"] else []) ++
      emptyFields [("RemoteFilePath", form.RemoteFilePath)]
    if failed.isEmpty then .ok form else .error (requiredError "UPloadForm" failed)

/-- `c.ShouldBind(&form)` for `DeleteForm`. -/
def bindDeleteForm (req : Request) : Except String DeleteForm :=
  match req.parseErr with
  | some e => .error e
  | none =>
    let form : DeleteForm := ⟨req.field "remoteFilePath"⟩
    let failed := emptyFields [("RemoteFilePath", form.RemoteFilePath)]
    if failed.isEmpty then .ok form else .error (requiredError "DeleteForm" failed)

/-- `c.ShouldBind(&form)` for `CopyForm`. -/
def bindCopyForm (req : Request) : Except String CopyForm :=
  match req.parseErr with
  | some e => .error e
  | none =>
    let form : CopyForm := ⟨req.field "srcFilePath", req.field "dstFilePath"⟩
    let failed := emptyFields
      [("SrcFilePath", form.SrcFilePath), ("DstFilePath", form.DstFilePath)]
    if failed.isEmpty then .ok form else .error (requiredError "CopyForm" failed)

/-- `c.ShouldBind(&form)` for `UploadPolicyForm`. -/
def bindUploadPolicyForm (req : Request) : Except String UploadPolicyForm :=
  match req.parseErr with
  | some e => .error e
  | none =>
    let form : UploadPolicyForm :=
      ⟨req.field "remoteFilePath", req.field "callbackURL", req.field "callbackBody"⟩
    let failed := emptyFields
      [("RemoteFilePath", form.RemoteFilePath), ("CallbackURL", form.CallbackURL),
       ("CallbackBody", form.CallbackBody)]
    if failed.isEmpty then .ok form else .error (requiredError "UploadPolicyForm" failed)

/-- The write of `httputil.NewError(c, status, err)`: `ctx.JSON(status, HTTPError)` with
the members `code` and `message`. -/
def NewError (status : Nat) (err : String) : Event :=
  .writeJSON status [("code", .num status), ("message", .str err)]

/-- The effects of `fsStorage, err := config.LoadStorage()` and of the check after it:
an error is printed and nothing else is done about it. -/
def loadStorageEvents (err : GoError) : List Event :=
  match err with
  | some e => [.LoadStorage, .Println ("Load storage error: " ++ e ++ "\n")]
  | none => [.LoadStorage]

/-- The two writes every handler makes when the storage operation returned `e`. -/
def storageFailure (e : String) : List Event :=
  [.writeJSON 400 [("error", .str e)], NewError 400 e]

/-- Handler `Upload`. -/
def Upload (env : Env) (req : Request) : Outcome :=
  match bindUPloadForm req with
  | .error _ => ⟨[.writeString 400 "bad request"], false⟩
  | .ok form =>
    let remoteFilePath := PostForm req "remoteFilePath"
    let str := env.Getwd.1
    match form.File with
    | none => ⟨[], true⟩
    | some file =>
      let dst := str ++ file.Filename
      match env.SaveUploadedFile file dst with
      | some e =>
        ⟨[.SaveUploadedFile file dst (some e), .Println (e ++ "\n"),
          .writeString 500 "unknown error"], false⟩
      | none =>
        let pre := .SaveUploadedFile file dst none :: loadStorageEvents env.LoadStorage.2
        match env.LoadStorage.1 with
        | none => ⟨pre, true⟩
        | some fsStorage =>
          match fsStorage.UploadLocalFile dst remoteFilePath with
          | some e =>
            ⟨pre ++ .storage (.UploadLocalFile dst remoteFilePath) (some e) ::
              storageFailure e, false⟩
          | none =>
            ⟨pre ++ [.storage (.UploadLocalFile dst remoteFilePath) none,
              .writeJSON 200 [("status", .str file.Filename), ("message", .str "success")]],
              false⟩

/-- Handler `Delete`. -/
def Delete (env : Env) (req : Request) : Outcome :=
  match bindDeleteForm req with
  | .error _ => ⟨[.writeString 400 "bad request"], false⟩
  | .ok form =>
    let pre := loadStorageEvents env.LoadStorage.2
    match env.LoadStorage.1 with
    | none => ⟨pre, true⟩
    | some fsStorage =>
      match fsStorage.DeleteSingleFile form.RemoteFilePath with
      | some e =>
        ⟨pre ++ .storage (.DeleteSingleFile form.RemoteFilePath) (some e) ::
          storageFailure e, false⟩
      | none =>
        ⟨pre ++ [.storage (.DeleteSingleFile form.RemoteFilePath) none,
          .writeJSON 200 [("status", .num 10000), ("message", .str "success")]], false⟩

/-- Handler `Copy`. -/
def Copy (env : Env) (req : Request) : Outcome :=
  match bindCopyForm req with
  | .error _ => ⟨[.writeString 400 "bad request"], false⟩
  | .ok form =>
    let pre := loadStorageEvents env.LoadStorage.2
    match env.LoadStorage.1 with
    | none => ⟨pre, true⟩
    | some fsStorage =>
      match fsStorage.CopyFile form.SrcFilePath form.DstFilePath with
      | some e =>
        ⟨pre ++ .storage (.CopyFile form.SrcFilePath form.DstFilePath) (some e) ::
          storageFailure e, false⟩
      | none =>
        ⟨pre ++ [.storage (.CopyFile form.SrcFilePath form.DstFilePath) none,
          .writeJSON 200 [("status", .num 10000), ("message", .str "success")]], false⟩

/-- Handler `UoloadPolicy`. -/
def UoloadPolicy (env : Env) (req : Request) : Outcome :=
  match bindUploadPolicyForm req with
  | .error e => ⟨[.Println (e ++ "\n"), .writeString 400 "bad request"], false⟩
  | .ok form =>
    let pre := loadStorageEvents env.LoadStorage.2
    match env.LoadStorage.1 with
    | none => ⟨pre, true⟩
    | some fsStorage =>
      let call := StorageCall.GetUploadPolicy form.RemoteFilePath form.CallbackURL
        form.CallbackBody
      match fsStorage.GetUploadPolicy form.RemoteFilePath form.CallbackURL
          form.CallbackBody with
      | (_, some e) => ⟨pre ++ .storage call (some e) :: storageFailure e, false⟩
      | (policyString, none) =>
        ⟨pre ++ [.storage call none, .writeString 200 policyString], false⟩

/-! ## What is observed of an outcome -/

/-- One piece of a response body: a text written by `c.String`, or a JSON object
written by `c.JSON`. -/
inductive Chunk where
  | text (s : String)
  | json (obj : JSONObject)
  deriving DecidableEq, Repr

/-- The HTTP response a client receives: the status of the first write (the header
is sent with it and later writes cannot change it) and the pieces of the body in
the order written. -/
structure Response where
  status : Nat
  body : List Chunk
  deriving DecidableEq, Repr

/-- The write an event makes to the response, if it is one. -/
def Event.write : Event → Option (Nat × Chunk)
  | .writeString code text => some (code, .text text)
  | .writeJSON code obj => some (code, .json obj)
  | _ => none

/-- The storage call an event is, if it is one, with the error returned. -/
def Event.storageCall : Event → Option (StorageCall × GoError)
  | .storage call err => some (call, err)
  | _ => none

/-- The response the handler wrote, `none` when it wrote nothing. -/
def Outcome.response (o : Outcome) : Option Response :=
  match o.events.filterMap Event.write with
  | [] => none
  | (code, chunk) :: rest => some ⟨code, chunk :: rest.map Prod.snd⟩

/-- The storage operations the handler invoked, with the errors they returned. -/
def Outcome.storageResults (o : Outcome) : List (StorageCall × GoError) :=
  o.events.filterMap Event.storageCall

/-- The storage operations the handler invoked. -/
def Outcome.storageCalls (o : Outcome) : List StorageCall :=
  o.storageResults.map Prod.fst

/-- Whether the handler called `config.LoadStorage`. -/
def Outcome.loadedStorage (o : Outcome) : Bool :=
  o.events.contains .LoadStorage

/-- The save an event is, if it is one, with the error returned. -/
def Event.save : Event → Option (FileHeader × String × GoError)
  | .SaveUploadedFile file dst err => some (file, dst, err)
  | _ => none

/-- The calls of `c.SaveUploadedFile` the handler made: file, destination, error. -/
def Outcome.saves (o : Outcome) : List (FileHeader × String × GoError) :=
  o.events.filterMap Event.save

/-- The string members of a JSON object. -/
def JSONObject.strings (obj : JSONObject) : List String :=
  obj.filterMap fun m => match m.2 with
    | .str s => some s
    | .num _ => none

/-- The texts a piece of a body carries: the text itself, or the string members
of the object. -/
def Chunk.messages : Chunk → List String
  | .text s => [s]
  | .json obj => JSONObject.strings obj

/-- The texts a response carries. -/
def Response.messages (r : Response) : List String :=
  r.body.flatMap Chunk.messages

/-- The four routes of the gateway. -/
inductive Endpoint where
  | upload
  | delete
  | copy
  | uploadPolicy
  deriving DecidableEq, Repr

/-- The handler of a route. -/
def Endpoint.handler : Endpoint → Env → Request → Outcome
  | .upload => Upload
  | .delete => Delete
  | .copy => Copy
  | .uploadPolicy => UoloadPolicy

/-- Whether `c.ShouldBind` of the route returns no error on the request. -/
def Endpoint.binds : Endpoint → Request → Bool
  | .upload, req => (bindUPloadForm req).toBool
  | .delete, req => (bindDeleteForm req).toBool
  | .copy, req => (bindCopyForm req).toBool
  | .uploadPolicy, req => (bindUploadPolicyForm req).toBool

/-- The route a storage operation belongs to. -/
def StorageCall.endpoint : StorageCall → Endpoint
  | .UploadLocalFile _ _ => .upload
  | .DeleteSingleFile _ => .delete
  | .CopyFile _ _ => .copy
  | .GetUploadPolicy _ _ _ => .uploadPolicy

/-- The uploaded file was saved locally: a call of `c.SaveUploadedFile` returned no error. -/
def Outcome.savedLocally (o : Outcome) : Prop :=
  ∃ file dst, (file, dst, none) ∈ o.saves

/-- The storage operation of the route was invoked and returned no error. -/
def Outcome.operationSucceeded (o : Outcome) (ep : Endpoint) : Prop :=
  ∃ call, call.endpoint = ep ∧ (call, none) ∈ o.storageResults

/-- The condition under which a handler may answer 200: binding succeeded, for the
upload route the file was saved locally, and the storage operation of the route was
invoked and returned no error. -/
def Completed (ep : Endpoint) (req : Request) (o : Outcome) : Prop :=
  ep.binds req = true ∧ (ep = .upload → o.savedLocally) ∧ o.operationSucceeded ep

/-- The two JSON objects a handler writes when the storage operation returned `e`. -/
def failureBody (e : String) : List Chunk :=
  [.json [("error", .str e)], .json [("code", .num 400), ("message", .str e)]]

/-- Some required field of the form of the route is left at its zero value by the
binder: a string field for which it found no value or an empty one, or the field
`File` in which it stored no file header. -/
def Endpoint.missingRequired : Endpoint → Request → Prop
  | .upload, req => req.file = none ∨ req.field "remoteFilePath" = ""
  | .delete, req => req.field "remoteFilePath" = ""
  | .copy, req => req.field "srcFilePath" = "" ∨ req.field "dstFilePath" = ""
  | .uploadPolicy, req =>
    req.field "remoteFilePath" = "" ∨ req.field "callbackURL" = "" ∨
      req.field "callbackBody" = ""

/-! ## Example backends, environments and requests -/

/-- A backend whose operations all succeed; it issues the policy `policy`. -/
def okBackend (policy : String) : StorageBackend :=
  ⟨fun _ _ => none, fun _ => none, fun _ _ => none, fun _ _ _ => (policy, none)⟩

/-- A backend whose operations all fail with the error text `e`. -/
def failingBackend (e : String) : StorageBackend :=
  ⟨fun _ _ => some e, fun _ => some e, fun _ _ => some e, fun _ _ _ => ("", some e)⟩

/-- An environment with working directory `/srv` in which saving an upload succeeds
and `config.LoadStorage` returns the given pair. -/
def exampleEnv (storage : Option StorageBackend) (err : GoError) : Env :=
  ⟨("/srv", none), fun _ _ => none, (storage, err)⟩

/-- An environment in which saving an upload fails with `e`. -/
def saveFailsEnv (e : String) : Env :=
  ⟨("/srv", none), fun _ _ => some e, (some (okBackend "p"), none)⟩

/-- The fields the binder fills from the values of a form body: the first value
under the key of the field, nothing when the key is absent. -/
def formField (values : List (String × String)) (tag : String) : String :=
  (values.lookup tag).getD ""

/-- A multipart form that uploads the file `x.txt` as part `file`, with
`remoteFilePath=remote/x.txt`. -/
def uploadRequest : Request :=
  ⟨none, formField [("remoteFilePath", "remote/x.txt")], some ⟨"x.txt"⟩,
    [("file", ⟨"x.txt"⟩)], [("remoteFilePath", "remote/x.txt")]⟩

/-- A request to `/upload` that uploads nothing: its body is the JSON object with the
members `File`, an object with `Filename` `x.txt`, and `RemoteFilePath`,
`remote/x.txt`.  The JSON binder fills both fields of the form; there is no post
form. -/
def jsonUploadRequest : Request :=
  ⟨none, formField [("remoteFilePath", "remote/x.txt")], some ⟨"x.txt"⟩, [], []⟩

/-- A form request to delete `a/b.png`. -/
def deleteRequest : Request :=
  ⟨none, formField [("remoteFilePath", "a/b.png")], none, [],
    [("remoteFilePath", "a/b.png")]⟩

/-- A form request to copy `a/b.png` to `c/d.png`. -/
def copyRequest : Request :=
  ⟨none, formField [("srcFilePath", "a/b.png"), ("dstFilePath", "c/d.png")], none, [],
    [("srcFilePath", "a/b.png"), ("dstFilePath", "c/d.png")]⟩

/-- A form request for a policy for `a/b.png` with the given callback URL. -/
def policyRequest (callbackURL : String) : Request :=
  ⟨none, formField [("remoteFilePath", "a/b.png"), ("callbackURL", callbackURL),
      ("callbackBody", "id=42")], none, [],
    [("remoteFilePath", "a/b.png"), ("callbackURL", callbackURL),
      ("callbackBody", "id=42")]⟩

/-- A form request for a policy with an empty `callbackBody` and no `callbackURL`. -/
def incompletePolicyRequest : Request :=
  ⟨none, formField [("remoteFilePath", "a/b.png"), ("callbackBody", "")], none, [],
    [("remoteFilePath", "a/b.png"), ("callbackBody", "")]⟩

/-- Modelled from the spec: the syntax the spec asks of `callbackURL`, a
"syntactically valid absolute URI", for which the source has no check.  After
RFC 3986: a scheme (a letter, then letters, digits, `+`, `-` or `.`), a colon, and a
remainder of visible ASCII characters. -/
def isAbsoluteURI (s : String) : Bool :=
  match s.toList.span (fun c => c != ':') with
  | (first :: scheme, _ :: rest) =>
    first.isAlpha &&
      scheme.all (fun c => c.isAlphanum || c == '+' || c == '-' || c == '.') &&
      rest.all (fun c => decide (32 < c.toNat ∧ c.toNat < 127))
  | _ => false

/-! ## Binding -/

theorem bindDeleteForm_eq_ok (req : Request) (form : DeleteForm) :
    bindDeleteForm req = .ok form ↔
      req.parseErr = none ∧ req.field "remoteFilePath" ≠ "" ∧
        form = ⟨req.field "remoteFilePath"⟩ := by
  unfold bindDeleteForm
  cases hp : req.parseErr with
  | some e => simp
  | none =>
    by_cases h : req.field "remoteFilePath" = "" <;>
      simp [emptyFields, h, eq_comm]

theorem bindCopyForm_eq_ok (req : Request) (form : CopyForm) :
    bindCopyForm req = .ok form ↔
      req.parseErr = none ∧ req.field "srcFilePath" ≠ "" ∧
        req.field "dstFilePath" ≠ "" ∧
        form = ⟨req.field "srcFilePath", req.field "dstFilePath"⟩ := by
  unfold bindCopyForm
  cases hp : req.parseErr with
  | some e => simp
  | none =>
    by_cases h : req.field "srcFilePath" = "" <;>
      by_cases h2 : req.field "dstFilePath" = "" <;>
        simp [emptyFields, h, h2, eq_comm]

theorem bindUploadPolicyForm_eq_ok (req : Request) (form : UploadPolicyForm) :
    bindUploadPolicyForm req = .ok form ↔
      req.parseErr = none ∧ req.field "remoteFilePath" ≠ "" ∧
        req.field "callbackURL" ≠ "" ∧ req.field "callbackBody" ≠ "" ∧
        form = ⟨req.field "remoteFilePath", req.field "callbackURL",
          req.field "callbackBody"⟩ := by
  unfold bindUploadPolicyForm
  cases hp : req.parseErr with
  | some e => simp
  | none =>
    by_cases h : req.field "remoteFilePath" = "" <;>
      by_cases h2 : req.field "callbackURL" = "" <;>
        by_cases h3 : req.field "callbackBody" = "" <;>
          simp [emptyFields, h, h2, h3, eq_comm]

theorem bindUPloadForm_eq_ok (req : Request) (form : UPloadForm) :
    bindUPloadForm req = .ok form ↔
      req.parseErr = none ∧ (∃ file, req.file = some file) ∧
        req.field "remoteFilePath" ≠ "" ∧
        form = ⟨req.file, req.field "remoteFilePath"⟩ := by
  unfold bindUPloadForm
  cases hp : req.parseErr with
  | some e => simp
  | none =>
    by_cases h : req.field "remoteFilePath" = "" <;>
      cases hf : req.file <;>
        simp [emptyFields, h, hf, eq_comm]

theorem binds_eq_false_of_missingRequired (ep : Endpoint) (req : Request)
    (h : ep.missingRequired req) : ep.binds req = false := by
  cases ep
  · cases hb : bindUPloadForm req with
    | error e => simp [Endpoint.binds, hb, Except.toBool]
    | ok form =>
      obtain ⟨-, ⟨file, hf⟩, hr, -⟩ := (bindUPloadForm_eq_ok req form).1 hb
      rcases h with h | h
      · simp [hf] at h
      · exact absurd h hr
  · cases hb : bindDeleteForm req with
    | error e => simp [Endpoint.binds, hb, Except.toBool]
    | ok form =>
      obtain ⟨-, hr, -⟩ := (bindDeleteForm_eq_ok req form).1 hb
      exact absurd h hr
  · cases hb : bindCopyForm req with
    | error e => simp [Endpoint.binds, hb, Except.toBool]
    | ok form =>
      obtain ⟨-, hs, hd, -⟩ := (bindCopyForm_eq_ok req form).1 hb
      rcases h with h | h
      · exact absurd h hs
      · exact absurd h hd
  · cases hb : bindUploadPolicyForm req with
    | error e => simp [Endpoint.binds, hb, Except.toBool]
    | ok form =>
      obtain ⟨-, hr, hu, hc, -⟩ := (bindUploadPolicyForm_eq_ok req form).1 hb
      rcases h with h | h | h
      · exact absurd h hr
      · exact absurd h hu
      · exact absurd h hc

/-- What a handler does when binding fails: it writes `400 bad request` and returns,
having at most printed the binding error. -/
theorem handler_of_not_binds (ep : Endpoint) (env : Env) (req : Request)
    (h : ep.binds req = false) :
    (ep.handler env req).response = some ⟨400, [.text "bad request"]⟩ ∧
      (ep.handler env req).loadedStorage = false ∧
      (ep.handler env req).storageResults = [] ∧
      (ep.handler env req).panicked = false := by
  cases ep
  · cases hb : bindUPloadForm req with
    | ok form => simp [Endpoint.binds, hb, Except.toBool] at h
    | error e =>
      simp [Endpoint.handler, Upload, hb, Outcome.response, Outcome.loadedStorage,
        Outcome.storageResults, Event.write, Event.storageCall]
  · cases hb : bindDeleteForm req with
    | ok form => simp [Endpoint.binds, hb, Except.toBool] at h
    | error e =>
      simp [Endpoint.handler, Delete, hb, Outcome.response, Outcome.loadedStorage,
        Outcome.storageResults, Event.write, Event.storageCall]
  · cases hb : bindCopyForm req with
    | ok form => simp [Endpoint.binds, hb, Except.toBool] at h
    | error e =>
      simp [Endpoint.handler, Copy, hb, Outcome.response, Outcome.loadedStorage,
        Outcome.storageResults, Event.write, Event.storageCall]
  · cases hb : bindUploadPolicyForm req with
    | ok form => simp [Endpoint.binds, hb, Except.toBool] at h
    | error e =>
      simp [Endpoint.handler, UoloadPolicy, hb, Outcome.response, Outcome.loadedStorage,
        Outcome.storageResults, Event.write, Event.storageCall]

/-! ## The shapes of an outcome -/

@[simp] theorem filterMap_write_loadStorageEvents (err : GoError) :
    (loadStorageEvents err).filterMap Event.write = [] := by
  cases err <;> simp [loadStorageEvents, Event.write]

@[simp] theorem filterMap_storageCall_loadStorageEvents (err : GoError) :
    (loadStorageEvents err).filterMap Event.storageCall = [] := by
  cases err <;> simp [loadStorageEvents, Event.storageCall]

@[simp] theorem filterMap_save_loadStorageEvents (err : GoError) :
    (loadStorageEvents err).filterMap Event.save = [] := by
  cases err <;> simp [loadStorageEvents, Event.save]

@[simp] theorem loadStorage_mem_loadStorageEvents (err : GoError) :
    Event.LoadStorage ∈ loadStorageEvents err := by
  cases err <;> simp [loadStorageEvents]

/-- The outcome of a handler on a request that binds is of one of four shapes:
the save of the upload failed; the loaded storage is nil and the handler panics;
the storage operation failed; the storage operation succeeded. -/
theorem handler_of_binds (ep : Endpoint) (env : Env) (req : Request)
    (h : ep.binds req = true) :
    (ep = .upload ∧ (∃ file dst e, (ep.handler env req).saves = [(file, dst, some e)]) ∧
        (ep.handler env req).response = some ⟨500, [.text "unknown error"]⟩ ∧
        (ep.handler env req).loadedStorage = false ∧
        (ep.handler env req).storageResults = [] ∧
        (ep.handler env req).panicked = false) ∨
    ((ep = .upload → ∃ file dst, (ep.handler env req).saves = [(file, dst, none)]) ∧
        env.LoadStorage.1 = none ∧
        (ep.handler env req).response = none ∧
        (ep.handler env req).loadedStorage = true ∧
        (ep.handler env req).storageResults = [] ∧
        (ep.handler env req).panicked = true) ∨
    ((ep = .upload → ∃ file dst, (ep.handler env req).saves = [(file, dst, none)]) ∧
        env.LoadStorage.1 ≠ none ∧
        (∃ call e, call.endpoint = ep ∧
          (ep.handler env req).storageResults = [(call, some e)] ∧
          (ep.handler env req).response = some ⟨400, failureBody e⟩) ∧
        (ep.handler env req).loadedStorage = true ∧
        (ep.handler env req).panicked = false) ∨
    ((ep = .upload → ∃ file dst, (ep.handler env req).saves = [(file, dst, none)]) ∧
        env.LoadStorage.1 ≠ none ∧
        (∃ call chunk, call.endpoint = ep ∧
          (ep.handler env req).storageResults = [(call, none)] ∧
          (ep.handler env req).response = some ⟨200, [chunk]⟩) ∧
        (ep.handler env req).loadedStorage = true ∧
        (ep.handler env req).panicked = false) := by
  cases ep
  · cases hb : bindUPloadForm req with
    | error e => simp [Endpoint.binds, hb, Except.toBool] at h
    | ok form =>
      obtain ⟨-, ⟨file, hf⟩, -, rfl⟩ := (bindUPloadForm_eq_ok req form).1 hb
      cases hs : env.SaveUploadedFile file (env.Getwd.1 ++ file.Filename) with
      | some e =>
        left
        simp [Endpoint.handler, Upload, hb, hf, hs, Outcome.response, Outcome.loadedStorage,
          Outcome.storageResults, Outcome.saves, Event.write, Event.storageCall, Event.save]
      | none =>
        right
        cases hl : env.LoadStorage.1 with
        | none =>
          left
          simp [Endpoint.handler, Upload, hb, hf, hs, hl, Outcome.response,
            Outcome.loadedStorage, Outcome.storageResults, Outcome.saves, Event.write,
            Event.storageCall, Event.save]
        | some b =>
          right
          cases ho : b.UploadLocalFile (env.Getwd.1 ++ file.Filename)
              (PostForm req "remoteFilePath") with
          | some e =>
            left
            simp [Endpoint.handler, Upload, hb, hf, hs, hl, ho, Outcome.response,
              Outcome.loadedStorage, Outcome.storageResults, Outcome.saves, Event.write,
              Event.storageCall, Event.save, storageFailure, NewError, failureBody,
              StorageCall.endpoint]
          | none =>
            right
            simp [Endpoint.handler, Upload, hb, hf, hs, hl, ho, Outcome.response,
              Outcome.loadedStorage, Outcome.storageResults, Outcome.saves, Event.write,
              Event.storageCall, Event.save, StorageCall.endpoint]
  · cases hb : bindDeleteForm req with
    | error e => simp [Endpoint.binds, hb, Except.toBool] at h
    | ok form =>
      right
      cases hl : env.LoadStorage.1 with
      | none =>
        left
        simp [Endpoint.handler, Delete, hb, hl, Outcome.response, Outcome.loadedStorage,
          Outcome.storageResults, Event.write, Event.storageCall]
      | some b =>
        right
        cases ho : b.DeleteSingleFile form.RemoteFilePath with
        | some e =>
          left
          simp [Endpoint.handler, Delete, hb, hl, ho, Outcome.response,
            Outcome.loadedStorage, Outcome.storageResults, Event.write, Event.storageCall,
            storageFailure, NewError, failureBody, StorageCall.endpoint]
        | none =>
          right
          simp [Endpoint.handler, Delete, hb, hl, ho, Outcome.response,
            Outcome.loadedStorage, Outcome.storageResults, Event.write, Event.storageCall,
            StorageCall.endpoint]
  · cases hb : bindCopyForm req with
    | error e => simp [Endpoint.binds, hb, Except.toBool] at h
    | ok form =>
      right
      cases hl : env.LoadStorage.1 with
      | none =>
        left
        simp [Endpoint.handler, Copy, hb, hl, Outcome.response, Outcome.loadedStorage,
          Outcome.storageResults, Event.write, Event.storageCall]
      | some b =>
        right
        cases ho : b.CopyFile form.SrcFilePath form.DstFilePath with
        | some e =>
          left
          simp [Endpoint.handler, Copy, hb, hl, ho, Outcome.response,
            Outcome.loadedStorage, Outcome.storageResults, Event.write, Event.storageCall,
            storageFailure, NewError, failureBody, StorageCall.endpoint]
        | none =>
          right
          simp [Endpoint.handler, Copy, hb, hl, ho, Outcome.response,
            Outcome.loadedStorage, Outcome.storageResults, Event.write, Event.storageCall,
            StorageCall.endpoint]
  · cases hb : bindUploadPolicyForm req with
    | error e => simp [Endpoint.binds, hb, Except.toBool] at h
    | ok form =>
      right
      cases hl : env.LoadStorage.1 with
      | none =>
        left
        simp [Endpoint.handler, UoloadPolicy, hb, hl, Outcome.response,
          Outcome.loadedStorage, Outcome.storageResults, Event.write, Event.storageCall]
      | some b =>
        right
        rcases ho : b.GetUploadPolicy form.RemoteFilePath form.CallbackURL
            form.CallbackBody with ⟨policy, _ | e⟩
        · right
          simp [Endpoint.handler, UoloadPolicy, hb, hl, ho, Outcome.response,
            Outcome.loadedStorage, Outcome.storageResults, Event.write, Event.storageCall,
            StorageCall.endpoint]
        · left
          simp [Endpoint.handler, UoloadPolicy, hb, hl, ho, Outcome.response,
            Outcome.loadedStorage, Outcome.storageResults, Event.write, Event.storageCall,
            storageFailure, NewError, failureBody, StorageCall.endpoint]

theorem messages_failureBody (e : String) :
    (Response.mk 400 (failureBody e)).messages = [e, e] := by
  simp [Response.messages, failureBody, Chunk.messages, JSONObject.strings]

/-! ## Claims -/

/-- C1, as amended: for each of the four handlers and every request, the handler
writes an HTTP 200 response if and only if binding succeeded, (for Upload) the
uploaded file was saved locally, and the storage operation of the route was invoked
and returned no error.  In every other case in which the handler returns, the
response has status 400 or 500 and carries a message: `bad request`,
`unknown error`, or the text of the error the storage operation returned.  The
handler fails to return only when the loaded storage value is nil. -/
theorem ok_iff_completed (ep : Endpoint) (env : Env) (req : Request) :
    ((∃ r, (ep.handler env req).response = some r ∧ r.status = 200) ↔
        Completed ep req (ep.handler env req)) ∧
      ((ep.handler env req).panicked = false → ¬ Completed ep req (ep.handler env req) →
        ∃ r, (ep.handler env req).response = some r ∧ (r.status = 400 ∨ r.status = 500) ∧
          (r.messages = ["bad request"] ∨ r.messages = ["unknown error"] ∨
            ∃ call e, (call, some e) ∈ (ep.handler env req).storageResults ∧
              e ∈ r.messages)) ∧
      ((ep.handler env req).panicked = true → env.LoadStorage.1 = none) := by
  cases hb : ep.binds req with
  | false =>
    obtain ⟨h1, -, h3, h4⟩ := handler_of_not_binds ep env req hb
    refine ⟨⟨?_, ?_⟩, ?_, ?_⟩
    · rintro ⟨r, hr, h200⟩
      rw [h1] at hr
      cases hr
      simp at h200
    · rintro ⟨hb2, -⟩
      rw [hb] at hb2
      cases hb2
    · intro _ _
      exact ⟨_, h1, Or.inl rfl, Or.inl (by simp [Response.messages, Chunk.messages])⟩
    · intro hp
      rw [h4] at hp
      cases hp
  | true =>
    rcases handler_of_binds ep env req hb with
      ⟨hep, ⟨file, dst, e, hs⟩, hr, -, hres, hp⟩ | ⟨-, hl, hr, -, hres, hp⟩ |
      ⟨hs, -, ⟨call, e, hc, hres, hr⟩, -, hp⟩ | ⟨hs, -, ⟨call, chunk, hc, hres, hr⟩, -, hp⟩
    · refine ⟨⟨?_, ?_⟩, ?_, ?_⟩
      · rintro ⟨r, hr2, h200⟩
        rw [hr] at hr2
        cases hr2
        simp at h200
      · rintro ⟨-, -, call, -, hmem⟩
        simp [hres] at hmem
      · intro _ _
        exact ⟨_, hr, Or.inr rfl, Or.inr (Or.inl (by simp [Response.messages, Chunk.messages]))⟩
      · intro hp2
        rw [hp] at hp2
        cases hp2
    · refine ⟨⟨?_, ?_⟩, ?_, ?_⟩
      · rintro ⟨r, hr2, -⟩
        rw [hr] at hr2
        cases hr2
      · rintro ⟨-, -, call, -, hmem⟩
        simp [hres] at hmem
      · intro hp2
        rw [hp] at hp2
        cases hp2
      · intro _
        exact hl
    · refine ⟨⟨?_, ?_⟩, ?_, ?_⟩
      · rintro ⟨r, hr2, h200⟩
        rw [hr] at hr2
        cases hr2
        simp at h200
      · rintro ⟨-, -, call2, -, hmem⟩
        simp [hres] at hmem
      · intro _ _
        refine ⟨_, hr, Or.inl rfl, Or.inr (Or.inr ⟨call, e, by simp [hres], ?_⟩)⟩
        simp [messages_failureBody]
      · intro hp2
        rw [hp] at hp2
        cases hp2
    · refine ⟨⟨?_, ?_⟩, ?_, ?_⟩
      · intro _
        refine ⟨hb, ?_, call, hc, by simp [hres]⟩
        intro hep
        obtain ⟨file, dst, hsv⟩ := hs hep
        exact ⟨file, dst, by simp [hsv]⟩
      · intro _
        exact ⟨_, hr, rfl⟩
      · intro _ hn
        exfalso
        apply hn
        refine ⟨hb, ?_, call, hc, by simp [hres]⟩
        intro hep
        obtain ⟨file, dst, hsv⟩ := hs hep
        exact ⟨file, dst, by simp [hsv]⟩
      · intro hp2
        rw [hp] at hp2
        cases hp2



/-- C3, as amended: for each of the four handlers and every request in which the
binder leaves a required field of the form at its zero value (no file header stored
in `File`, or an empty `remoteFilePath`, for Upload; an empty `remoteFilePath` for
Delete; an empty `srcFilePath` or `dstFilePath` for Copy; an empty `remoteFilePath`,
`callbackURL` or `callbackBody` for UoloadPolicy), the handler responds with HTTP
400 (`bad request`) and returns without calling `config.LoadStorage` or any storage
operation. -/
theorem missing_field_bad_request (ep : Endpoint) (env : Env) (req : Request)
    (h : ep.missingRequired req) :
    (ep.handler env req).response = some ⟨400, [.text "bad request"]⟩ ∧
      (ep.handler env req).loadedStorage = false ∧
      (ep.handler env req).storageCalls = [] ∧
      (ep.handler env req).panicked = false := by
  have hb := binds_eq_false_of_missingRequired ep req h
  obtain ⟨h1, h2, h3, h4⟩ := handler_of_not_binds ep env req hb
  exact ⟨h1, h2, by simp [Outcome.storageCalls, h3], h4⟩

/-- Witness of C3: a policy request with an empty `callbackBody` and no `callbackURL`. -/
theorem missing_field_bad_request_witness :
    Endpoint.missingRequired .uploadPolicy incompletePolicyRequest ∧
      (UoloadPolicy (exampleEnv (some (okBackend "p")) none)
        incompletePolicyRequest).response = some ⟨400, [.text "bad request"]⟩ :=
  ⟨Or.inr (Or.inl (by decide)),
    (missing_field_bad_request .uploadPolicy (exampleEnv (some (okBackend "p")) none)
      incompletePolicyRequest (Or.inr (Or.inl (by decide)))).1⟩

/-- Counterexample to C3 as stated: a request to `/upload` in which the file is
missing, nothing being uploaded, and whose JSON body fills the field `File`.  The
request binds, saving the file that was never uploaded fails, and the handler
answers `500 unknown error`, not 400. -/
theorem unuploaded_file_not_bad_request :
    jsonUploadRequest.uploads.lookup "file" = none ∧
      Endpoint.binds .upload jsonUploadRequest = true ∧
      (Upload (saveFailsEnv "open : no such file or directory") jsonUploadRequest).response
        = some ⟨500, [.text "unknown error"]⟩ := by
  decide

/-- Witness of C1: an upload whose save fails is answered `500 unknown error`. -/
theorem ok_iff_completed_witness :
    (Upload (saveFailsEnv "disk full") uploadRequest).panicked = false ∧
      ¬ Completed .upload uploadRequest (Upload (saveFailsEnv "disk full") uploadRequest) ∧
      ∃ r, (Upload (saveFailsEnv "disk full") uploadRequest).response = some r ∧
        (r.status = 400 ∨ r.status = 500) ∧
        (r.messages = ["bad request"] ∨ r.messages = ["unknown error"] ∨
          ∃ call e, (call, some e) ∈
              (Upload (saveFailsEnv "disk full") uploadRequest).storageResults ∧
            e ∈ r.messages) :=
  have hp : (Upload (saveFailsEnv "disk full") uploadRequest).panicked = false := by decide
  have hn : ¬ Completed .upload uploadRequest
      (Upload (saveFailsEnv "disk full") uploadRequest) := by
    rintro ⟨-, -, call, -, hmem⟩
    have h : (Upload (saveFailsEnv "disk full") uploadRequest).storageResults = [] := by
      decide
    rw [h] at hmem
    cases hmem
  ⟨hp, hn, (ok_iff_completed .upload (saveFailsEnv "disk full") uploadRequest).2.1 hp hn⟩

/-- Counterexample to C1 as stated: when `config.LoadStorage` returns a nil storage
(with an error), `Delete` on a request that binds completes no operation and yet
writes no response at all, so no non-200 status and no message reach the client
from the handler; and when the storage operation fails with an error whose text is
empty, every message of the 400 response is empty. -/
theorem no_response_on_nil_storage :
    (¬ Completed .delete deleteRequest
        (Delete (exampleEnv none (some "no storage configured")) deleteRequest) ∧
      (Delete (exampleEnv none (some "no storage configured")) deleteRequest).response
        = none) ∧
    (¬ Completed .delete deleteRequest
        (Delete (exampleEnv (some (failingBackend "")) none) deleteRequest) ∧
      ∃ r, (Delete (exampleEnv (some (failingBackend "")) none) deleteRequest).response
          = some r ∧ ∀ m ∈ r.messages, m = "") := by
  refine ⟨⟨?_, by decide⟩, ?_, ?_⟩
  · rintro ⟨-, -, call, -, hmem⟩
    have h : (Delete (exampleEnv none (some "no storage configured"))
        deleteRequest).storageResults = [] := by decide
    rw [h] at hmem
    cases hmem
  · rintro ⟨-, -, call, -, hmem⟩
    have h : (Delete (exampleEnv (some (failingBackend "")) none) deleteRequest).storageResults
        = [(.DeleteSingleFile "a/b.png", some "")] := by decide
    rw [h] at hmem
    simp at hmem
  · exact ⟨⟨400, failureBody ""⟩, by decide, by decide⟩

/-- C5, evaluated at a failing delete: the storage operation returns the error
`boom`; the response has status 400 and its body is two JSON objects written one
after the other, the object with member `error` and then the `HTTPError` object of
`httputil.NewError`, not a single error object. -/
theorem storage_error_writes_two_objects :
    (Delete (exampleEnv (some (failingBackend "boom")) none) deleteRequest).response
      = some ⟨400, [.json [("error", .str "boom")],
          .json [("code", .num 400), ("message", .str "boom")]]⟩ := by
  decide

/-- C4: for every policy request that binds and for which `GetUploadPolicy` returns
a policy string `p` without error, `UoloadPolicy` responds with HTTP 200 and a body
that is the single text `p`, written as it is. -/
theorem policy_passed_through (env : Env) (req : Request) (form : UploadPolicyForm)
    (b : StorageBackend) (p : String)
    (hb : bindUploadPolicyForm req = .ok form) (hl : env.LoadStorage.1 = some b)
    (hp : b.GetUploadPolicy form.RemoteFilePath form.CallbackURL form.CallbackBody
      = (p, none)) :
    (UoloadPolicy env req).response = some ⟨200, [.text p]⟩ := by
  simp [UoloadPolicy, hb, hl, hp, Outcome.response, Event.write]

/-- Witness of C4: a policy string with percent signs reaches the body unchanged. -/
theorem policy_passed_through_witness :
    (UoloadPolicy (exampleEnv (some (okBackend "100%s%d%%")) none)
        (policyRequest "https://cb.example/done")).response
      = some ⟨200, [.text "100%s%d%%"]⟩ :=
  policy_passed_through (exampleEnv (some (okBackend "100%s%d%%")) none)
    (policyRequest "https://cb.example/done") ⟨"a/b.png", "https://cb.example/done", "id=42"⟩
    (okBackend "100%s%d%%") "100%s%d%%" rfl rfl rfl

/-- C6: for Upload, Delete and Copy, whenever the storage operation returns no
error (on a request that binds, with the loaded storage value and, for Upload, the
file saved), the handler responds with HTTP 200 and one JSON object with exactly
the members `status` and `message`, `message` being `success`; `status` is 10000
for Delete and Copy and the name of the uploaded file for Upload. -/
theorem success_envelope (env : Env) (req : Request) (b : StorageBackend)
    (hl : env.LoadStorage.1 = some b) :
    (∀ form, bindDeleteForm req = .ok form →
      b.DeleteSingleFile form.RemoteFilePath = none →
      (Delete env req).storageResults = [(.DeleteSingleFile form.RemoteFilePath, none)] ∧
      (Delete env req).response
        = some ⟨200, [.json [("status", .num 10000), ("message", .str "success")]]⟩) ∧
    (∀ form, bindCopyForm req = .ok form →
      b.CopyFile form.SrcFilePath form.DstFilePath = none →
      (Copy env req).storageResults
        = [(.CopyFile form.SrcFilePath form.DstFilePath, none)] ∧
      (Copy env req).response
        = some ⟨200, [.json [("status", .num 10000), ("message", .str "success")]]⟩) ∧
    (∀ form file, bindUPloadForm req = .ok form → form.File = some file →
      env.SaveUploadedFile file (env.Getwd.1 ++ file.Filename) = none →
      b.UploadLocalFile (env.Getwd.1 ++ file.Filename) (PostForm req "remoteFilePath")
        = none →
      (Upload env req).storageResults
        = [(.UploadLocalFile (env.Getwd.1 ++ file.Filename)
            (PostForm req "remoteFilePath"), none)] ∧
      (Upload env req).response
        = some ⟨200, [.json [("status", .str file.Filename),
            ("message", .str "success")]]⟩) := by
  refine ⟨?_, ?_, ?_⟩
  · intro form hb ho
    simp [Delete, hb, hl, ho, Outcome.response, Outcome.storageResults, Event.write,
      Event.storageCall]
  · intro form hb ho
    simp [Copy, hb, hl, ho, Outcome.response, Outcome.storageResults, Event.write,
      Event.storageCall]
  · intro form file hb hf hs ho
    simp [Upload, hb, hf, hl, hs, ho, Outcome.response, Outcome.storageResults,
      Event.write, Event.storageCall]

/-- Witness of C6: a delete, a copy and an upload of `x.txt` that the storage accepts. -/
theorem success_envelope_witness :
    (Delete (exampleEnv (some (okBackend "p")) none) deleteRequest).response
        = some ⟨200, [.json [("status", .num 10000), ("message", .str "success")]]⟩ ∧
      (Copy (exampleEnv (some (okBackend "p")) none) copyRequest).response
        = some ⟨200, [.json [("status", .num 10000), ("message", .str "success")]]⟩ ∧
      (Upload (exampleEnv (some (okBackend "p")) none) uploadRequest).response
        = some ⟨200, [.json [("status", .str "x.txt"), ("message", .str "success")]]⟩ :=
  ⟨((success_envelope (exampleEnv (some (okBackend "p")) none) deleteRequest
      (okBackend "p") rfl).1 ⟨"a/b.png"⟩ rfl rfl).2,
    ((success_envelope (exampleEnv (some (okBackend "p")) none) copyRequest
      (okBackend "p") rfl).2.1 ⟨"a/b.png", "c/d.png"⟩ rfl rfl).2,
    ((success_envelope (exampleEnv (some (okBackend "p")) none) uploadRequest
      (okBackend "p") rfl).2.2 ⟨some ⟨"x.txt"⟩, "remote/x.txt"⟩ ⟨"x.txt"⟩ rfl rfl rfl rfl).2⟩

/-- C7: for every request that binds, each handler forwards the bound fields, as the
binder stored them, to the storage unchanged and in the argument order of the
operation: `DeleteSingleFile(remoteFilePath)`, `CopyFile(srcFilePath,
dstFilePath)`, `GetUploadPolicy(remoteFilePath, callbackURL, callbackBody)`; Upload
passes the `remoteFilePath` of the request, read with `c.PostForm`, as second
argument of `UploadLocalFile`.  That is the one storage call the handler makes with
a loaded storage value (and, for Upload, the file saved), and it makes no other
storage call in any case. -/
theorem arguments_forwarded (env : Env) (req : Request) :
    (∀ form, bindDeleteForm req = .ok form →
      form.RemoteFilePath = req.field "remoteFilePath" ∧
      (∀ c ∈ (Delete env req).storageCalls, c = .DeleteSingleFile form.RemoteFilePath) ∧
      (env.LoadStorage.1 ≠ none →
        (Delete env req).storageCalls = [.DeleteSingleFile form.RemoteFilePath])) ∧
    (∀ form, bindCopyForm req = .ok form →
      (form.SrcFilePath = req.field "srcFilePath" ∧
        form.DstFilePath = req.field "dstFilePath") ∧
      (∀ c ∈ (Copy env req).storageCalls, c = .CopyFile form.SrcFilePath form.DstFilePath) ∧
      (env.LoadStorage.1 ≠ none →
        (Copy env req).storageCalls = [.CopyFile form.SrcFilePath form.DstFilePath])) ∧
    (∀ form, bindUploadPolicyForm req = .ok form →
      (form.RemoteFilePath = req.field "remoteFilePath" ∧
        form.CallbackURL = req.field "callbackURL" ∧
        form.CallbackBody = req.field "callbackBody") ∧
      (∀ c ∈ (UoloadPolicy env req).storageCalls,
        c = .GetUploadPolicy form.RemoteFilePath form.CallbackURL form.CallbackBody) ∧
      (env.LoadStorage.1 ≠ none →
        (UoloadPolicy env req).storageCalls
          = [.GetUploadPolicy form.RemoteFilePath form.CallbackURL form.CallbackBody])) ∧
    (∀ form file, bindUPloadForm req = .ok form → form.File = some file →
      (∀ c ∈ (Upload env req).storageCalls,
        c = .UploadLocalFile (env.Getwd.1 ++ file.Filename)
          (PostForm req "remoteFilePath")) ∧
      (env.LoadStorage.1 ≠ none →
        env.SaveUploadedFile file (env.Getwd.1 ++ file.Filename) = none →
        (Upload env req).storageCalls
          = [.UploadLocalFile (env.Getwd.1 ++ file.Filename)
              (PostForm req "remoteFilePath")])) := by
  refine ⟨?_, ?_, ?_, ?_⟩
  · intro form hb
    obtain ⟨-, -, rfl⟩ := (bindDeleteForm_eq_ok req form).1 hb
    cases hl : env.LoadStorage.1 with
    | none =>
      simp [Delete, hb, hl, Outcome.storageCalls, Outcome.storageResults, Event.storageCall]
    | some b =>
      cases ho : b.DeleteSingleFile (req.field "remoteFilePath") <;>
        simp [Delete, hb, hl, ho, Outcome.storageCalls, Outcome.storageResults,
          Event.storageCall, storageFailure, NewError]
  · intro form hb
    obtain ⟨-, -, -, rfl⟩ := (bindCopyForm_eq_ok req form).1 hb
    cases hl : env.LoadStorage.1 with
    | none =>
      simp [Copy, hb, hl, Outcome.storageCalls, Outcome.storageResults, Event.storageCall]
    | some b =>
      cases ho : b.CopyFile (req.field "srcFilePath") (req.field "dstFilePath") <;>
        simp [Copy, hb, hl, ho, Outcome.storageCalls, Outcome.storageResults,
          Event.storageCall, storageFailure, NewError]
  · intro form hb
    obtain ⟨-, -, -, -, rfl⟩ := (bindUploadPolicyForm_eq_ok req form).1 hb
    cases hl : env.LoadStorage.1 with
    | none =>
      simp [UoloadPolicy, hb, hl, Outcome.storageCalls, Outcome.storageResults,
        Event.storageCall]
    | some b =>
      rcases ho : b.GetUploadPolicy (req.field "remoteFilePath")
          (req.field "callbackURL") (req.field "callbackBody") with ⟨policy, _ | e⟩ <;>
        simp [UoloadPolicy, hb, hl, ho, Outcome.storageCalls, Outcome.storageResults,
          Event.storageCall, storageFailure, NewError]
  · intro form file hb hf
    cases hs : env.SaveUploadedFile file (env.Getwd.1 ++ file.Filename) with
    | some e =>
      simp [Upload, hb, hf, hs, Outcome.storageCalls, Outcome.storageResults,
        Event.storageCall]
    | none =>
      cases hl : env.LoadStorage.1 with
      | none =>
        simp [Upload, hb, hf, hs, hl, Outcome.storageCalls, Outcome.storageResults,
          Event.storageCall]
      | some b =>
        cases ho : b.UploadLocalFile (env.Getwd.1 ++ file.Filename)
            (PostForm req "remoteFilePath") <;>
          simp [Upload, hb, hf, hs, hl, ho, Outcome.storageCalls, Outcome.storageResults,
            Event.storageCall, storageFailure, NewError]

/-- Witness of C7: the one storage call of each of the four handlers on its example
request, with a loaded storage value. -/
theorem arguments_forwarded_witness :
    (exampleEnv (some (okBackend "p")) none).LoadStorage.1 ≠ none ∧
      (Delete (exampleEnv (some (okBackend "p")) none) deleteRequest).storageCalls
        = [.DeleteSingleFile "a/b.png"] ∧
      (Copy (exampleEnv (some (okBackend "p")) none) copyRequest).storageCalls
        = [.CopyFile "a/b.png" "c/d.png"] ∧
      (UoloadPolicy (exampleEnv (some (okBackend "p")) none)
        (policyRequest "https://cb.example/done")).storageCalls
        = [.GetUploadPolicy "a/b.png" "https://cb.example/done" "id=42"] ∧
      (Upload (exampleEnv (some (okBackend "p")) none) uploadRequest).storageCalls
        = [.UploadLocalFile "/srvx.txt" "remote/x.txt"] :=
  ⟨by simp [exampleEnv],
    ((arguments_forwarded (exampleEnv (some (okBackend "p")) none) deleteRequest).1
      ⟨"a/b.png"⟩ rfl).2.2 (by simp [exampleEnv]),
    ((arguments_forwarded (exampleEnv (some (okBackend "p")) none) copyRequest).2.1
      ⟨"a/b.png", "c/d.png"⟩ rfl).2.2 (by simp [exampleEnv]),
    ((arguments_forwarded (exampleEnv (some (okBackend "p")) none)
      (policyRequest "https://cb.example/done")).2.2.1
      ⟨"a/b.png", "https://cb.example/done", "id=42"⟩ rfl).2.2 (by simp [exampleEnv]),
    ((arguments_forwarded (exampleEnv (some (okBackend "p")) none) uploadRequest).2.2.2
      ⟨some ⟨"x.txt"⟩, "remote/x.txt"⟩ ⟨"x.txt"⟩ rfl rfl).2 (by simp [exampleEnv]) rfl⟩

/-- Counterexample to C8 as stated: a policy request whose `callbackURL` is not empty
and is no absolute URI is answered 200 with the policy the backend issued. -/
theorem malformed_callbackURL_accepted :
    "not a uri" ≠ "" ∧ isAbsoluteURI "not a uri" = false ∧
      (UoloadPolicy (exampleEnv (some (okBackend "signed-policy")) none)
        (policyRequest "not a uri")).response = some ⟨200, [.text "signed-policy"]⟩ := by
  decide

/-- C8, as amended: the policy endpoint makes no check of the syntax of
`callbackURL`.  Every policy request that parses and has three non-empty fields
binds, whatever `callbackURL` is; with a non-nil storage value the endpoint calls
`GetUploadPolicy` with the `callbackURL` as received, and the answer is decided by
the backend alone: 200 with the policy when it returns no error, 400 carrying the
error text when it returns an error. -/
theorem callbackURL_not_checked (env : Env) (req : Request) (b : StorageBackend)
    (hparse : req.parseErr = none) (hr : req.field "remoteFilePath" ≠ "")
    (hu : req.field "callbackURL" ≠ "") (hc : req.field "callbackBody" ≠ "")
    (hl : env.LoadStorage.1 = some b) :
    Endpoint.binds .uploadPolicy req = true ∧
      (UoloadPolicy env req).storageCalls
        = [.GetUploadPolicy (req.field "remoteFilePath") (req.field "callbackURL")
            (req.field "callbackBody")] ∧
      (∀ p, b.GetUploadPolicy (req.field "remoteFilePath") (req.field "callbackURL")
          (req.field "callbackBody") = (p, none) →
        (UoloadPolicy env req).response = some ⟨200, [.text p]⟩) ∧
      (∀ p e, b.GetUploadPolicy (req.field "remoteFilePath") (req.field "callbackURL")
          (req.field "callbackBody") = (p, some e) →
        ∃ r, (UoloadPolicy env req).response = some r ∧ r.status = 400 ∧
          e ∈ r.messages) := by
  have hb : bindUploadPolicyForm req = .ok ⟨req.field "remoteFilePath",
      req.field "callbackURL", req.field "callbackBody"⟩ :=
    (bindUploadPolicyForm_eq_ok req _).2 ⟨hparse, hr, hu, hc, rfl⟩
  refine ⟨by simp [Endpoint.binds, hb, Except.toBool], ?_, ?_, ?_⟩
  · rcases ho : b.GetUploadPolicy (req.field "remoteFilePath")
        (req.field "callbackURL") (req.field "callbackBody") with ⟨policy, _ | e⟩ <;>
      simp [UoloadPolicy, hb, hl, ho, Outcome.storageCalls, Outcome.storageResults,
        Event.storageCall, storageFailure, NewError]
  · intro p ho
    simp [UoloadPolicy, hb, hl, ho, Outcome.response, Event.write]
  · intro p e ho
    refine ⟨⟨400, failureBody e⟩, ?_, rfl, by simp [messages_failureBody]⟩
    simp [UoloadPolicy, hb, hl, ho, Outcome.response, Event.write, storageFailure,
      NewError, failureBody]

/-- Witness of C8: the request of the counterexample, with its malformed `callbackURL`. -/
theorem callbackURL_not_checked_witness :
    isAbsoluteURI "not a uri" = false ∧
      (UoloadPolicy (exampleEnv (some (okBackend "signed-policy")) none)
        (policyRequest "not a uri")).storageCalls
        = [.GetUploadPolicy "a/b.png" "not a uri" "id=42"] :=
  ⟨by decide,
    (callbackURL_not_checked (exampleEnv (some (okBackend "signed-policy")) none)
      (policyRequest "not a uri") (okBackend "signed-policy") rfl (by decide) (by decide)
      (by decide) rfl).2.1⟩

/-- C10: for every upload request that binds, the path the uploaded file is saved to
and the first argument of `UploadLocalFile` are the same string, the working
directory followed directly by the name of the uploaded file (the error of
`os.Getwd` is ignored, and an empty directory string leaves the bare file name);
and if saving to that path fails the handler responds `500 unknown error` without
calling `config.LoadStorage` or `UploadLocalFile`. -/
theorem upload_local_path (env : Env) (req : Request) (form : UPloadForm)
    (file : FileHeader) (hb : bindUPloadForm req = .ok form) (hf : form.File = some file) :
    (∃ err, (Upload env req).saves = [(file, env.Getwd.1 ++ file.Filename, err)]) ∧
      (∀ c ∈ (Upload env req).storageCalls,
        ∃ r, c = .UploadLocalFile (env.Getwd.1 ++ file.Filename) r) ∧
      (env.SaveUploadedFile file (env.Getwd.1 ++ file.Filename) = none →
        env.LoadStorage.1 ≠ none →
        (Upload env req).storageCalls
          = [.UploadLocalFile (env.Getwd.1 ++ file.Filename) (PostForm req "remoteFilePath")]) ∧
      (∀ err, Upload { env with Getwd := (env.Getwd.1, err) } req = Upload env req) ∧
      (env.Getwd.1 = "" → env.Getwd.1 ++ file.Filename = file.Filename) ∧
      (∀ e, env.SaveUploadedFile file (env.Getwd.1 ++ file.Filename) = some e →
        (Upload env req).response = some ⟨500, [.text "unknown error"]⟩ ∧
        (Upload env req).loadedStorage = false ∧
        (Upload env req).storageCalls = [] ∧
        (Upload env req).panicked = false) := by
  obtain ⟨-, ⟨file2, hf2⟩, -, rfl⟩ := (bindUPloadForm_eq_ok req form).1 hb
  simp only at hf
  rw [hf2] at hf
  cases hf
  refine ⟨?_, ?_, ?_, ?_, ?_, ?_⟩
  · cases hs : env.SaveUploadedFile file (env.Getwd.1 ++ file.Filename) with
    | some e => simp [Upload, hb, hf2, hs, Outcome.saves, Event.save]
    | none =>
      cases hl : env.LoadStorage.1 with
      | none => simp [Upload, hb, hf2, hs, hl, Outcome.saves, Event.save]
      | some b =>
        cases ho : b.UploadLocalFile (env.Getwd.1 ++ file.Filename)
            (PostForm req "remoteFilePath") <;>
          simp [Upload, hb, hf2, hs, hl, ho, Outcome.saves, Event.save, storageFailure,
            NewError]
  · cases hs : env.SaveUploadedFile file (env.Getwd.1 ++ file.Filename) with
    | some e =>
      simp [Upload, hb, hf2, hs, Outcome.storageCalls, Outcome.storageResults,
        Event.storageCall]
    | none =>
      cases hl : env.LoadStorage.1 with
      | none =>
        simp [Upload, hb, hf2, hs, hl, Outcome.storageCalls, Outcome.storageResults,
          Event.storageCall]
      | some b =>
        cases ho : b.UploadLocalFile (env.Getwd.1 ++ file.Filename)
            (PostForm req "remoteFilePath") <;>
          simp [Upload, hb, hf2, hs, hl, ho, Outcome.storageCalls, Outcome.storageResults,
            Event.storageCall, storageFailure, NewError]
  · intro hs hl
    cases hl2 : env.LoadStorage.1 with
    | none => exact absurd hl2 hl
    | some b =>
      cases ho : b.UploadLocalFile (env.Getwd.1 ++ file.Filename)
          (PostForm req "remoteFilePath") <;>
        simp [Upload, hb, hf2, hs, hl2, ho, Outcome.storageCalls, Outcome.storageResults,
          Event.storageCall, storageFailure, NewError]
  · intro err
    simp [Upload]
  · intro h0
    simp [h0]
  · intro e hs
    simp [Upload, hb, hf2, hs, Outcome.response, Outcome.loadedStorage,
      Outcome.storageCalls, Outcome.storageResults, Event.write, Event.storageCall]

/-- Witness of C10: the upload of `x.txt` from the working directory `/srv` is saved
to `/srvx.txt`, and a failed save is answered `500 unknown error`. -/
theorem upload_local_path_witness :
    (∃ err, (Upload (saveFailsEnv "disk full") uploadRequest).saves
        = [(⟨"x.txt"⟩, "/srvx.txt", err)]) ∧
      (Upload (saveFailsEnv "disk full") uploadRequest).response
        = some ⟨500, [.text "unknown error"]⟩ :=
  ⟨(upload_local_path (saveFailsEnv "disk full") uploadRequest
      ⟨some ⟨"x.txt"⟩, "remote/x.txt"⟩ ⟨"x.txt"⟩ rfl rfl).1,
    ((upload_local_path (saveFailsEnv "disk full") uploadRequest
      ⟨some ⟨"x.txt"⟩, "remote/x.txt"⟩ ⟨"x.txt"⟩ rfl rfl).2.2.2.2.2 "disk full" rfl).1⟩

end Filesystem
